import Mathlib

/-!
Verification of the field classification registry of
`src/include/field_code.h` (FreeSurfer surface-registration field codes).

The header defines the 14 field-code constants and the per-field name
macros (with `NULL` for the two directly computed fields), and declares
the two operations `ReturnFieldName` and `IsDistanceField`.  The bodies
of those two functions are not part of the fragment under `src/`; they
are modelled here from the specification (§4.1), faithful to its words,
on top of the constants taken verbatim from the header.
-/

namespace FieldCode

/-- From src/include/field_code.h: `#define NUMBER_OF_VECTORIAL_FIELDS 14`. -/
def NUMBER_OF_VECTORIAL_FIELDS : Int := 14

/-- Field code 0 (`INFLATED_CURV_CORR_FRAME`). -/
def INFLATED_CURV_CORR_FRAME : Int := 0

/-- Field code 1 (`SULC_CORR_FRAME`). -/
def SULC_CORR_FRAME : Int := 1

/-- Field code 2 (`CURVATURE_CORR_FRAME`). -/
def CURVATURE_CORR_FRAME : Int := 2

/-- Field code 3 (`GRAYMID_CORR_FRAME`). -/
def GRAYMID_CORR_FRAME : Int := 3

/-- Field code 4 (`T1MID_CORR_FRAME`). -/
def T1MID_CORR_FRAME : Int := 4

/-- Field code 5 (`T2MID_CORR_FRAME`). -/
def T2MID_CORR_FRAME : Int := 5

/-- Field code 6 (`PDMID_CORR_FRAME`). -/
def PDMID_CORR_FRAME : Int := 6

/-- Field code 7 (`AMYGDALA_CORR_FRAME`). -/
def AMYGDALA_CORR_FRAME : Int := 7

/-- Field code 8 (`HIPPOCAMPUS_CORR_FRAME`). -/
def HIPPOCAMPUS_CORR_FRAME : Int := 8

/-- Field code 9 (`PALLIDUM_CORR_FRAME`). -/
def PALLIDUM_CORR_FRAME : Int := 9

/-- Field code 10 (`PUTAMEN_CORR_FRAME`). -/
def PUTAMEN_CORR_FRAME : Int := 10

/-- Field code 11 (`CAUDATE_CORR_FRAME`). -/
def CAUDATE_CORR_FRAME : Int := 11

/-- Field code 12 (`LAT_VENTRICLE_CORR_FRAME`). -/
def LAT_VENTRICLE_CORR_FRAME : Int := 12

/-- Field code 13 (`INF_LAT_VENTRICLE_CORR_FRAME`). -/
def INF_LAT_VENTRICLE_CORR_FRAME : Int := 13

/-- Surface name for code 0: `#define INFLATED_CURVATURE_NAME NULL`
(directly computed).  A `NULL` char pointer is embedded as `none`. -/
def INFLATED_CURVATURE_NAME : Option String := none

/-- Surface name for code 1: `#define SULC_NAME "sulc"`. -/
def SULC_NAME : Option String := some "sulc"

/-- Surface name for code 2: `#define CURVATURE_NAME NULL`
(directly computed). -/
def CURVATURE_NAME : Option String := none

/-- Surface name for code 3.  In the header the macro is guarded by
`#ifndef GRAYMID_NAME`: a prior definition (the header comment points at
`mrisurf.h`) takes precedence, and only in its absence is the default
`"graymid"` used.  The optional prior definition is made an explicit
argument. -/
def GRAYMID_NAME (prior : Option String) : Option String :=
  some (prior.getD "graymid")

/-- Surface name for code 4: `#define T1MID_NAME "T1mid"`. -/
def T1MID_NAME : Option String := some "T1mid"

/-- Surface name for code 5: `#define T2MID_NAME "T2mid"`. -/
def T2MID_NAME : Option String := some "T2mid"

/-- Surface name for code 6: `#define PDMID_NAME "PDmid"`. -/
def PDMID_NAME : Option String := some "PDmid"

/-- Surface name for code 7: `#define AMYGDALA_DIST_NAME "amygdala_dist"`. -/
def AMYGDALA_DIST_NAME : Option String := some "amygdala_dist"

/-- Surface name for code 8: `#define HIPPOCAMPUS_DIST_NAME "hippocampus_dist"`. -/
def HIPPOCAMPUS_DIST_NAME : Option String := some "hippocampus_dist"

/-- Surface name for code 9: `#define PALLIDUM_DIST_NAME "pallidum_dist"`. -/
def PALLIDUM_DIST_NAME : Option String := some "pallidum_dist"

/-- Surface name for code 10: `#define PUTAMEN_DIST_NAME "putamen_dist"`. -/
def PUTAMEN_DIST_NAME : Option String := some "putamen_dist"

/-- Surface name for code 11: `#define CAUDATE_DIST_NAME "caudate_dist"`. -/
def CAUDATE_DIST_NAME : Option String := some "caudate_dist"

/-- Surface name for code 12: `#define LAT_VENTRICLE_DIST_NAME "latventricle_dist"`. -/
def LAT_VENTRICLE_DIST_NAME : Option String := some "latventricle_dist"

/-- Surface name for code 13: `#define INF_LAT_VENTRICLE_DIST_NAME "inflatventricle_dist"`. -/
def INF_LAT_VENTRICLE_DIST_NAME : Option String := some "inflatventricle_dist"

/-- Modelled from the spec: the single error kind of the registry,
Invalid Field Code (spec §7), for a code outside `[0,13]`.  The header
only declares the two operations, so their out-of-range behaviour is the
spec's uniform typed-error policy. -/
inductive FieldError where
  | invalidFieldCode (code : Int) : FieldError
deriving DecidableEq

instance {ε α : Type} [DecidableEq ε] [DecidableEq α] :
    DecidableEq (Except ε α) := fun x y =>
  match x, y with
  | .ok a, .ok b =>
    if h : a = b then .isTrue (by rw [h])
    else .isFalse (fun c => h (Except.ok.inj c))
  | .error a, .error b =>
    if h : a = b then .isTrue (by rw [h])
    else .isFalse (fun c => h (Except.error.inj c))
  | .ok _, .error _ => .isFalse (fun c => Except.noConfusion c)
  | .error _, .ok _ => .isFalse (fun c => Except.noConfusion c)

/-- Modelled from the spec: the body of `ReturnFieldName` is absent from
`src/` (only its prototype `char *ReturnFieldName(int which_field);`
appears in src/include/field_code.h).  Spec §4.1: codes 0 and 2 resolve
to the explicit no-name result (the `NULL` name macros of the header,
embedded as `none`), every other valid code resolves to the fixed name
macro of the header, and a code outside `[0,13]` signals the Invalid
Field Code condition as a typed error.  The function is parametrised by
the optional prior definition of `GRAYMID_NAME`. -/
def ReturnFieldNameCfg (graymidPrior : Option String) (which_field : Int) :
    Except FieldError (Option String) :=
  if which_field = INFLATED_CURV_CORR_FRAME then .ok INFLATED_CURVATURE_NAME
  else if which_field = SULC_CORR_FRAME then .ok SULC_NAME
  else if which_field = CURVATURE_CORR_FRAME then .ok CURVATURE_NAME
  else if which_field = GRAYMID_CORR_FRAME then .ok (GRAYMID_NAME graymidPrior)
  else if which_field = T1MID_CORR_FRAME then .ok T1MID_NAME
  else if which_field = T2MID_CORR_FRAME then .ok T2MID_NAME
  else if which_field = PDMID_CORR_FRAME then .ok PDMID_NAME
  else if which_field = AMYGDALA_CORR_FRAME then .ok AMYGDALA_DIST_NAME
  else if which_field = HIPPOCAMPUS_CORR_FRAME then .ok HIPPOCAMPUS_DIST_NAME
  else if which_field = PALLIDUM_CORR_FRAME then .ok PALLIDUM_DIST_NAME
  else if which_field = PUTAMEN_CORR_FRAME then .ok PUTAMEN_DIST_NAME
  else if which_field = CAUDATE_CORR_FRAME then .ok CAUDATE_DIST_NAME
  else if which_field = LAT_VENTRICLE_CORR_FRAME then .ok LAT_VENTRICLE_DIST_NAME
  else if which_field = INF_LAT_VENTRICLE_CORR_FRAME then .ok INF_LAT_VENTRICLE_DIST_NAME
  else .error (.invalidFieldCode which_field)

/-- The registry in its default configuration: no prior definition of
`GRAYMID_NAME` is in force, so the header's own `"graymid"` default
applies. -/
def ReturnFieldName : Int → Except FieldError (Option String) :=
  ReturnFieldNameCfg none

/-- Modelled from the spec: the body of `IsDistanceField` is absent from
`src/` (only its prototype `int IsDistanceField(int which_field);`
appears in src/include/field_code.h).  Spec §3/§4.1, per-code table
lookup: the distance-field flag of each of the 14 codes is the flag of
the table in §3, and a code outside `[0,13]` signals the Invalid Field
Code condition as the same typed error as `ReturnFieldName`. -/
def IsDistanceField (which_field : Int) : Except FieldError Bool :=
  if which_field = INFLATED_CURV_CORR_FRAME then .ok false
  else if which_field = SULC_CORR_FRAME then .ok false
  else if which_field = CURVATURE_CORR_FRAME then .ok false
  else if which_field = GRAYMID_CORR_FRAME then .ok false
  else if which_field = T1MID_CORR_FRAME then .ok false
  else if which_field = T2MID_CORR_FRAME then .ok false
  else if which_field = PDMID_CORR_FRAME then .ok false
  else if which_field = AMYGDALA_CORR_FRAME then .ok true
  else if which_field = HIPPOCAMPUS_CORR_FRAME then .ok true
  else if which_field = PALLIDUM_CORR_FRAME then .ok true
  else if which_field = PUTAMEN_CORR_FRAME then .ok true
  else if which_field = CAUDATE_CORR_FRAME then .ok true
  else if which_field = LAT_VENTRICLE_CORR_FRAME then .ok true
  else if which_field = INF_LAT_VENTRICLE_CORR_FRAME then .ok true
  else .error (.invalidFieldCode which_field)

/-- The range-test formulation of the distance-field predicate, written
from the spec's words in §3: a valid code is a distance field iff
`7 <= code <= 13`, and an out-of-range code is the Invalid Field Code
error.  Compared against the table-lookup `IsDistanceField` for the
refinement claim. -/
def isDistanceFieldRange (which_field : Int) : Except FieldError Bool :=
  if 0 ≤ which_field ∧ which_field ≤ 13 then
    .ok (decide (7 ≤ which_field ∧ which_field ≤ 13))
  else .error (.invalidFieldCode which_field)

/-- The name column of the spec's §3 table (default configuration), as a
single constant list indexed by field code, witnessing that the registry
is one table lookup. -/
def fieldNameTable : List (Option String) :=
  [none, some "sulc", none, some "graymid", some "T1mid", some "T2mid",
   some "PDmid", some "amygdala_dist", some "hippocampus_dist",
   some "pallidum_dist", some "putamen_dist", some "caudate_dist",
   some "latventricle_dist", some "inflatventricle_dist"]

/-- A result of the registry carries a proper field name exactly when it
is a successful lookup of a non-`NULL` name. -/
def hasName : Except FieldError (Option String) → Bool
  | .ok (some _) => true
  | _ => false

theorem hasName_iff (r : Except FieldError (Option String)) :
    hasName r = true ↔ ∃ s, r = .ok (some s) := by
  cases r with
  | error e => simp [hasName]
  | ok v =>
    cases v with
    | none => simp [hasName]
    | some s => simp [hasName]

/-- C1: for every field code in [0,13], `IsDistanceField` returns true iff
`7 <= code <= 13`; equivalently it returns false for every code in [0,6]. -/
theorem isDistanceField_true_iff_range (code : Int)
    (h0 : 0 ≤ code) (h13 : code ≤ 13) :
    (IsDistanceField code = .ok true ↔ (7 ≤ code ∧ code ≤ 13)) ∧
    (code ≤ 6 → IsDistanceField code = .ok false) := by
  interval_cases code <;> exact ⟨by decide, by decide⟩

theorem isDistanceField_true_iff_range_witness :
    IsDistanceField 9 = .ok true ∧ IsDistanceField 4 = .ok false :=
  ⟨(isDistanceField_true_iff_range 9 (by decide) (by decide)).1.mpr (by decide),
   (isDistanceField_true_iff_range 4 (by decide) (by decide)).2 (by decide)⟩

/-- C2: for every valid field code other than 0 and 2, `ReturnFieldName`
returns exactly the fixed string of the spec's table: codes 1 and 3–13
map to "sulc", "graymid", "T1mid", "T2mid", "PDmid", "amygdala_dist",
"hippocampus_dist", "pallidum_dist", "putamen_dist", "caudate_dist",
"latventricle_dist", "inflatventricle_dist" respectively; in particular
code 9 gives "pallidum_dist" and code 4 gives "T1mid". -/
theorem returnFieldName_named_codes :
    ReturnFieldName 1 = .ok (some "sulc") ∧
    ReturnFieldName 3 = .ok (some "graymid") ∧
    ReturnFieldName 4 = .ok (some "T1mid") ∧
    ReturnFieldName 5 = .ok (some "T2mid") ∧
    ReturnFieldName 6 = .ok (some "PDmid") ∧
    ReturnFieldName 7 = .ok (some "amygdala_dist") ∧
    ReturnFieldName 8 = .ok (some "hippocampus_dist") ∧
    ReturnFieldName 9 = .ok (some "pallidum_dist") ∧
    ReturnFieldName 10 = .ok (some "putamen_dist") ∧
    ReturnFieldName 11 = .ok (some "caudate_dist") ∧
    ReturnFieldName 12 = .ok (some "latventricle_dist") ∧
    ReturnFieldName 13 = .ok (some "inflatventricle_dist") := by
  decide

/-- C3: `ReturnFieldName` applied to codes 0 and 2 returns the explicit
no-name result `.ok none` (a success, distinct from any error), and no
other code in [0,13] returns it. -/
theorem returnFieldName_no_name_exactly_zero_two :
    ReturnFieldName 0 = .ok none ∧ ReturnFieldName 2 = .ok none ∧
    ∀ code : Int, 0 ≤ code → code ≤ 13 → code ≠ 0 → code ≠ 2 →
      ReturnFieldName code ≠ .ok none := by
  refine ⟨by decide, by decide, ?_⟩
  intro code h0 h13 hne0 hne2
  interval_cases code <;> first | decide | (exfalso; omega)

theorem returnFieldName_no_name_exactly_zero_two_witness :
    ReturnFieldName 0 = .ok none ∧ ReturnFieldName 9 ≠ .ok none :=
  ⟨returnFieldName_no_name_exactly_zero_two.1,
   returnFieldName_no_name_exactly_zero_two.2.2 9
     (by decide) (by decide) (by decide) (by decide)⟩

/-- C4: every out-of-range code, in particular -1 and 14, makes both
`ReturnFieldName` and `IsDistanceField` signal one and the same Invalid
Field Code typed error, and neither operation coerces such a code to any
successful default name or default classification. -/
theorem out_of_range_uniform_error (code : Int) (h : code < 0 ∨ 13 < code) :
    ReturnFieldName code = .error (.invalidFieldCode code) ∧
    IsDistanceField code = .error (.invalidFieldCode code) ∧
    (∀ r : Option String, ReturnFieldName code ≠ .ok r) ∧
    (∀ b : Bool, IsDistanceField code ≠ .ok b) := by
  have n0 : ¬(code = 0) := by omega
  have n1 : ¬(code = 1) := by omega
  have n2 : ¬(code = 2) := by omega
  have n3 : ¬(code = 3) := by omega
  have n4 : ¬(code = 4) := by omega
  have n5 : ¬(code = 5) := by omega
  have n6 : ¬(code = 6) := by omega
  have n7 : ¬(code = 7) := by omega
  have n8 : ¬(code = 8) := by omega
  have n9 : ¬(code = 9) := by omega
  have n10 : ¬(code = 10) := by omega
  have n11 : ¬(code = 11) := by omega
  have n12 : ¬(code = 12) := by omega
  have n13 : ¬(code = 13) := by omega
  have hr : ReturnFieldName code = .error (.invalidFieldCode code) := by
    simp only [ReturnFieldName, ReturnFieldNameCfg,
      INFLATED_CURV_CORR_FRAME, SULC_CORR_FRAME, CURVATURE_CORR_FRAME,
      GRAYMID_CORR_FRAME, T1MID_CORR_FRAME, T2MID_CORR_FRAME,
      PDMID_CORR_FRAME, AMYGDALA_CORR_FRAME, HIPPOCAMPUS_CORR_FRAME,
      PALLIDUM_CORR_FRAME, PUTAMEN_CORR_FRAME, CAUDATE_CORR_FRAME,
      LAT_VENTRICLE_CORR_FRAME, INF_LAT_VENTRICLE_CORR_FRAME,
      if_neg n0, if_neg n1, if_neg n2, if_neg n3, if_neg n4, if_neg n5,
      if_neg n6, if_neg n7, if_neg n8, if_neg n9, if_neg n10, if_neg n11,
      if_neg n12, if_neg n13]
  have hd : IsDistanceField code = .error (.invalidFieldCode code) := by
    simp only [IsDistanceField,
      INFLATED_CURV_CORR_FRAME, SULC_CORR_FRAME, CURVATURE_CORR_FRAME,
      GRAYMID_CORR_FRAME, T1MID_CORR_FRAME, T2MID_CORR_FRAME,
      PDMID_CORR_FRAME, AMYGDALA_CORR_FRAME, HIPPOCAMPUS_CORR_FRAME,
      PALLIDUM_CORR_FRAME, PUTAMEN_CORR_FRAME, CAUDATE_CORR_FRAME,
      LAT_VENTRICLE_CORR_FRAME, INF_LAT_VENTRICLE_CORR_FRAME,
      if_neg n0, if_neg n1, if_neg n2, if_neg n3, if_neg n4, if_neg n5,
      if_neg n6, if_neg n7, if_neg n8, if_neg n9, if_neg n10, if_neg n11,
      if_neg n12, if_neg n13]
  refine ⟨hr, hd, fun r hx => ?_, fun b hx => ?_⟩
  · rw [hr] at hx
    exact Except.noConfusion hx
  · rw [hd] at hx
    exact Except.noConfusion hx

theorem out_of_range_uniform_error_witness :
    ReturnFieldName (-1) = .error (.invalidFieldCode (-1)) ∧
    IsDistanceField (-1) = .error (.invalidFieldCode (-1)) ∧
    ReturnFieldName 14 = .error (.invalidFieldCode 14) ∧
    IsDistanceField 14 = .error (.invalidFieldCode 14) :=
  ⟨(out_of_range_uniform_error (-1) (by decide)).1,
   (out_of_range_uniform_error (-1) (by decide)).2.1,
   (out_of_range_uniform_error 14 (by decide)).1,
   (out_of_range_uniform_error 14 (by decide)).2.1⟩

/-- C5: the 14 codes partition exactly into three classes under the pair
of operations: {0,2} yield no name and flag false, {1,3,4,5,6} yield a
name and flag false, {7..13} yield a name and flag true, and every code
in [0,13] falls in at least (hence, the classes being incompatible,
exactly) one of the three. -/
theorem field_code_partition (code : Int) (h0 : 0 ≤ code) (h13 : code ≤ 13) :
    ((code = 0 ∨ code = 2) ↔
      (ReturnFieldName code = .ok none ∧ IsDistanceField code = .ok false)) ∧
    ((code = 1 ∨ (3 ≤ code ∧ code ≤ 6)) ↔
      (hasName (ReturnFieldName code) = true ∧
        IsDistanceField code = .ok false)) ∧
    ((7 ≤ code ∧ code ≤ 13) ↔
      (hasName (ReturnFieldName code) = true ∧
        IsDistanceField code = .ok true)) ∧
    ((code = 0 ∨ code = 2) ∨ (code = 1 ∨ (3 ≤ code ∧ code ≤ 6)) ∨
      (7 ≤ code ∧ code ≤ 13)) := by
  interval_cases code <;> exact ⟨by decide, by decide, by decide, by decide⟩

theorem field_code_partition_witness :
    hasName (ReturnFieldName 9) = true ∧ IsDistanceField 9 = .ok true :=
  (field_code_partition 9 (by decide) (by decide)).2.2.1.mp (by decide)

/-- C6: the table-lookup formulation of the distance-field predicate and
the range-test formulation (distance field iff `7 <= code <= 13`) are
equal on all 14 codes in [0,13]. -/
theorem isDistanceField_table_eq_range (code : Int)
    (h0 : 0 ≤ code) (h13 : code ≤ 13) :
    IsDistanceField code = isDistanceFieldRange code := by
  interval_cases code <;> decide

theorem isDistanceField_table_eq_range_witness :
    IsDistanceField 7 = isDistanceFieldRange 7 :=
  isDistanceField_table_eq_range 7 (by decide) (by decide)

/-- C7: both operations are pure, deterministic functions of the field
code (and, for name resolution, of the fixed configuration): any two
calls with the same code return identical results. -/
theorem registry_deterministic (c1 c2 : Int) (g : Option String)
    (h : c1 = c2) :
    ReturnFieldNameCfg g c1 = ReturnFieldNameCfg g c2 ∧
    ReturnFieldName c1 = ReturnFieldName c2 ∧
    IsDistanceField c1 = IsDistanceField c2 := by
  subst h
  exact ⟨rfl, rfl, rfl⟩

theorem registry_deterministic_witness :
    ReturnFieldName 9 = ReturnFieldName 9 ∧
    IsDistanceField 9 = IsDistanceField 9 :=
  ⟨(registry_deterministic 9 9 none rfl).2.1,
   (registry_deterministic 9 9 none rfl).2.2⟩

/-- C8: both operations terminate on every code in [0,13] and are
definable without iteration, recursion or backtracking: `ReturnFieldName`
agrees with a single lookup in the constant `fieldNameTable`, and
`IsDistanceField` with a single range comparison. -/
theorem registry_single_lookup (code : Int)
    (h0 : 0 ≤ code) (h13 : code ≤ 13) :
    ReturnFieldName code = .ok (fieldNameTable.getD code.toNat none) ∧
    IsDistanceField code = .ok (decide (7 ≤ code)) := by
  interval_cases code <;> exact ⟨by decide, by decide⟩

theorem registry_single_lookup_witness :
    ReturnFieldName 10 = .ok (fieldNameTable.getD (Int.toNat 10) none) ∧
    IsDistanceField 10 = .ok (decide (7 ≤ (10 : Int))) :=
  registry_single_lookup 10 (by decide) (by decide)

/-- C9: the no-name result of `ReturnFieldName` for codes 0 and 2 is the
`NULL` name macro of the header, embedded as `none`, which is
distinguishable from every valid field name `some s` and is a successful
result, not an error. -/
theorem no_name_is_none_not_error (s : String) (e : FieldError) :
    ReturnFieldName 0 = .ok INFLATED_CURVATURE_NAME ∧
    ReturnFieldName 2 = .ok CURVATURE_NAME ∧
    INFLATED_CURVATURE_NAME = none ∧ CURVATURE_NAME = none ∧
    (Except.ok (none : Option String) :
      Except FieldError (Option String)) ≠ .ok (some s) ∧
    (Except.ok (none : Option String) :
      Except FieldError (Option String)) ≠ .error e :=
  ⟨by decide, by decide, rfl, rfl,
   fun hx => Option.noConfusion (Except.ok.inj hx),
   fun hx => Except.noConfusion hx⟩

theorem no_name_is_none_not_error_witness :
    ReturnFieldName 0 = .ok INFLATED_CURVATURE_NAME ∧
    (Except.ok (none : Option String) :
      Except FieldError (Option String)) ≠ .ok (some "sulc") :=
  ⟨(no_name_is_none_not_error "sulc" (.invalidFieldCode 14)).1,
   (no_name_is_none_not_error "sulc" (.invalidFieldCode 14)).2.2.2.2.1⟩

/-- C10: the name of field code 3 equals "graymid" only as a default:
when a prior definition of `GRAYMID_NAME` is in force it takes
precedence, so `ReturnFieldName 3 = "graymid"` holds in the default
configuration but not unconditionally. -/
theorem graymid_default_overridable (s : String) :
    GRAYMID_NAME none = some "graymid" ∧
    GRAYMID_NAME (some s) = some s ∧
    ReturnFieldName 3 = .ok (some "graymid") ∧
    ReturnFieldNameCfg (some s) 3 = .ok (some s) ∧
    ReturnFieldNameCfg (some "T1bias") 3 ≠ .ok (some "graymid") :=
  ⟨rfl, rfl, by decide, rfl, by decide⟩

theorem graymid_default_overridable_witness :
    GRAYMID_NAME (some "T1bias") = some "T1bias" ∧
    ReturnFieldNameCfg (some "T1bias") 3 = .ok (some "T1bias") :=
  ⟨(graymid_default_overridable "T1bias").2.1,
   (graymid_default_overridable "T1bias").2.2.2.1⟩

end FieldCode
